import Mathlib

/-!
Verification of the EGL context-creation module (`src/api/egl/mod.rs`)

Shallow embedding of the EGL backend: extension-string parsing, framebuffer
config enumeration/filtering, API/version negotiation, context-attribute
assembly, the two-phase builder (`Context::new` / `ContextPrototype::finish`),
and the `Context` runtime contract (`make_current`, `swap_buffers`, `Drop`).

The native EGL library is modelled as a structure of pure response functions
(`Egl`); every embedded operation additionally returns the list of native
calls it performed, so that call-ordering and frame-effect properties can be
stated.  Machine integers are modelled as `Int`/`Nat` with explicit `% 2^w`
truncation where the source casts (`as u8`, `as u16`, `as u32`).
-/

namespace Winit

/-! ## Native constants

Modelled from the spec: the generated FFI bindings module (`ffi::egl`) is not
part of the provided source; the numeric values below are the standard EGL
token values the bindings carry.  No claim depends on the particular numbers,
only on the identities and distinctions between them. -/

namespace egl

def CONTEXT_LOST : Nat := 0x300E
def BAD_ATTRIBUTE : Nat := 0x3004
def NONE : Int := 0x3038
def CONTEXT_MAJOR_VERSION : Int := 0x3098
def CONTEXT_MINOR_VERSION : Int := 0x30FB
def CONTEXT_CLIENT_VERSION : Int := 0x3098
def CONTEXT_FLAGS_KHR : Int := 0x30FC
def CONTEXT_OPENGL_DEBUG : Int := 0x31B0
def CONTEXT_OPENGL_ROBUST_ACCESS : Nat := 0x31B2
def CONTEXT_OPENGL_NO_ERROR_KHR : Int := 0x31B3
def CONTEXT_OPENGL_RESET_NOTIFICATION_STRATEGY : Int := 0x31BD
def NO_RESET_NOTIFICATION : Int := 0x31BE
def LOSE_CONTEXT_ON_RESET : Int := 0x31BF
def TRUE : Int := 1
def OPENGL_ES_BIT : Nat := 0x0001
def OPENGL_ES2_BIT : Nat := 0x0004
def OPENGL_ES3_BIT : Nat := 0x0040
def OPENGL_BIT : Nat := 0x0008
def WINDOW_BIT : Nat := 0x0004
def PBUFFER_BIT : Nat := 0x0001
def RGB_BUFFER : Int := 0x308E
def SLOW_CONFIG : Int := 0x3050
def OPENGL_API : Nat := 0x30A2
def OPENGL_ES_API : Nat := 0x30A0
def RENDERABLE_TYPE : Nat := 0x3040
def CONFORMANT : Nat := 0x3042
def SURFACE_TYPE : Nat := 0x3033
def TRANSPARENT_TYPE : Nat := 0x3034
def COLOR_BUFFER_TYPE : Nat := 0x303F
def CONFIG_CAVEAT : Nat := 0x3027
def RED_SIZE : Nat := 0x3024
def GREEN_SIZE : Nat := 0x3023
def BLUE_SIZE : Nat := 0x3022
def ALPHA_SIZE : Nat := 0x3021
def DEPTH_SIZE : Nat := 0x3025
def STENCIL_SIZE : Nat := 0x3026
def SAMPLES : Nat := 0x3031
def WIDTH : Int := 0x3057
def HEIGHT : Int := 0x3056

end egl

/-! ## Data model (types used by the module; from the crate root `use` list) -/

/-- API family. Modelled from the spec: "Api: variant over {DesktopGL, GLES}". -/
inductive Api where
  | OpenGl
  | OpenGlEs
deriving DecidableEq, Repr

/-- The version-policy request (`GlRequest`), as consumed by `Context::new`. -/
inductive GlRequest where
  | Latest
  | Specific (api : Api) (version : Nat × Nat)
  | GlThenGles (opengles_version : Nat × Nat) (opengl_version : Nat × Nat)
deriving DecidableEq, Repr

/-- Robustness policy, variants as matched in `create_context`. -/
inductive Robustness where
  | NotRobust
  | NoError
  | RobustNoResetNotification
  | TryRobustNoResetNotification
  | RobustLoseContextOnReset
  | TryRobustLoseContextOnReset
deriving DecidableEq, Repr

/-- Creation-time error values of the module (`CreationError` variants it uses). -/
inductive CreationError where
  | OsError (msg : String)
  | OpenGlVersionNotSupported
  | RobustnessNotSupported
  | NoAvailablePixelFormat
deriving DecidableEq, Repr

/-- Model of `PixelFormat`: `u8`/`u16` fields are `Nat` with explicit truncation at casts. -/
structure PixelFormat where
  hardware_accelerated : Bool
  color_bits : Nat
  alpha_bits : Nat
  depth_bits : Nat
  stencil_bits : Nat
  stereoscopy : Bool
  double_buffer : Bool
  multisampling : Option Nat
  srgb : Bool
deriving DecidableEq, Repr

/-- The builder fields the module reads (`BuilderAttribs`); `sharing` records
`builder.sharing.is_some()`. -/
structure BuilderAttribs where
  sharing : Bool
  gl_version : GlRequest
  gl_debug : Bool
  gl_robustness : Robustness
  dimensions : Option (Nat × Nat)
deriving DecidableEq, Repr

/-- Equality on `Except` results is decidable (needed for concrete
evaluation of the embedded fallible operations). -/
instance {ε α : Type} [DecidableEq ε] [DecidableEq α] : DecidableEq (Except ε α)
  | .error a, .error b =>
    if h : a = b then .isTrue (by rw [h]) else .isFalse (by simp [h])
  | .error _, .ok _ => .isFalse (by simp)
  | .ok _, .error _ => .isFalse (by simp)
  | .ok a, .ok b =>
    if h : a = b then .isTrue (by rw [h]) else .isFalse (by simp [h])

/-! ## Integer casts (Rust `as uN` on an `EGLint`) -/

/-- Rust `as u8` on an `i32`: low 8 bits, two's complement. -/
def asU8 (i : Int) : Nat := (i % 256).toNat

/-- Rust `as u16` on an `i32`. -/
def asU16 (i : Int) : Nat := (i % 65536).toNat

/-- Rust `as u32` on an `i32`. -/
def asU32 (i : Int) : Nat := (i % 4294967296).toNat

/-- Lexicographic `>=` on version pairs, Rust tuple ordering. -/
def vge (a b : Int × Int) : Bool := a.1 > b.1 || (a.1 == b.1 && a.2 ≥ b.2)

/-- Lexicographic `<` on version pairs. -/
def vlt (a b : Int × Int) : Bool := !(vge a b)

/-! ## Extension-string parsing

`Context::new` runs `list.split(' ').map(to_string).collect()` on the
capability string; Rust `str::split(' ')` keeps empty fields and yields one
(empty) field on the empty string. -/

/-- Rust `str::split(' ')` on a character list: split at every single space,
keeping empty fields. -/
def splitSpaceAux : List Char → List Char → List (List Char)
  | [], acc => [acc.reverse]
  | c :: cs, acc =>
    if c = ' ' then acc.reverse :: splitSpaceAux cs []
    else splitSpaceAux cs (c :: acc)

/-- Rust `s.split(' ').map(to_string).collect::<Vec<_>>()`. -/
def splitSpaces (s : String) : List String :=
  (splitSpaceAux s.toList []).map String.mk

/-- The spec-level `ExtensionSet.parse`: an absent
capability string yields the empty list (as in `Context::new`, which falls
back to `vec![]`); a present string is split on single spaces. -/
def parseExtensions : Option String → List String
  | none => []
  | some s => splitSpaces s

/-- The spec-level `ExtensionSet.contains`: exact membership, as the module
queries with `extensions.iter().find(|s| s == &name).is_some()`. -/
def extContains (exts : List String) (name : String) : Bool :=
  exts.contains name

/-! ## The mock native layer and call traces -/

/-- One native EGL call, with the arguments claims care about. -/
inductive NCall where
  | queryStringNoDisplay
  | getDisplay
  | initDisplay
  | queryStringDisplay
  | bindAPI (api : Nat)
  | getConfigs
  | createWindowSurface
  | createPbufferSurface (attrs : List Int)
  | createAttempt (version : Nat × Nat)
  | nativeCreateContext (config : Nat) (attrs : List Int)
  | getError
  | destroyContext (display ctxt : Nat)
  | destroySurface (display surf : Nat)
  | terminate (display : Nat)
  | makeCurrentCall (display draw read ctxt : Nat)
  | swapBuffersCall (display surf : Nat)
deriving DecidableEq, Repr

/-- The native EGL library as a deterministic mock: each field is the response
of the corresponding entry point (`none` models a null/zero failure return).
`choosePixelFormat` stands for the host collaborator
`builder.choose_pixel_format` (outside this module per the spec, §4.2). -/
structure Egl where
  queryStringNoDisplay : Option String
  getDisplay : Option Nat
  initDisplay : Option (Int × Int)
  queryStringDisplay : String
  bindAPI : Nat → Bool
  getConfigs : Option (List Nat)
  getConfigAttrib : Nat → Nat → Nat → Option Int
  createWindowSurface : Option Nat
  createPbufferSurface : List Int → Option Nat
  createContext : Nat → List Int → Option Nat
  getError : Nat
  makeCurrentRet : Nat → Nat → Nat → Nat → Bool
  swapBuffersRet : Nat → Nat → Bool
  choosePixelFormat : List (Nat × PixelFormat) → Except CreationError (Nat × PixelFormat)

/-- Result of a fallible embedded operation; `fatal` is the `panic!` path
(process abort), carrying the native error code it reports. -/
inductive Res (α : Type) where
  | ok (a : α)
  | err (e : CreationError)
  | fatal (code : Nat)
deriving DecidableEq, Repr

/-! ## `create_context`: attribute assembly and the native creation call -/

/-- Computes `egl_version >= &(1, 5)` or extensions contain EGL_EXT_create_context_robustness`. -/
def supports_robustness (egl_version : Int × Int) (extensions : List String) : Bool :=
  vge egl_version (1, 5) || extContains extensions "EGL_EXT_create_context_robustness"

/-- The robustness arm of `create_context` on the extension-capable path:
the attribute pairs pushed and the flag bits accumulated, or the hard
failure for `Robust*` variants without support. -/
def robustnessPush (supports : Bool) (extensions : List String) (rob : Robustness) :
    Except CreationError (List Int × Nat) :=
  match rob with
  | .NotRobust => .ok ([], 0)
  | .NoError =>
    if extContains extensions "EGL_KHR_create_context_no_error" then
      .ok ([egl.CONTEXT_OPENGL_NO_ERROR_KHR, 1], 0)
    else .ok ([], 0)
  | .RobustNoResetNotification =>
    if supports then
      .ok ([egl.CONTEXT_OPENGL_RESET_NOTIFICATION_STRATEGY, egl.NO_RESET_NOTIFICATION],
           egl.CONTEXT_OPENGL_ROBUST_ACCESS)
    else .error .RobustnessNotSupported
  | .TryRobustNoResetNotification =>
    if supports then
      .ok ([egl.CONTEXT_OPENGL_RESET_NOTIFICATION_STRATEGY, egl.NO_RESET_NOTIFICATION],
           egl.CONTEXT_OPENGL_ROBUST_ACCESS)
    else .ok ([], 0)
  | .RobustLoseContextOnReset =>
    if supports then
      .ok ([egl.CONTEXT_OPENGL_RESET_NOTIFICATION_STRATEGY, egl.LOSE_CONTEXT_ON_RESET],
           egl.CONTEXT_OPENGL_ROBUST_ACCESS)
    else .error .RobustnessNotSupported
  | .TryRobustLoseContextOnReset =>
    if supports then
      .ok ([egl.CONTEXT_OPENGL_RESET_NOTIFICATION_STRATEGY, egl.LOSE_CONTEXT_ON_RESET],
           egl.CONTEXT_OPENGL_ROBUST_ACCESS)
    else .ok ([], 0)

/-- The pure attribute-list assembly of `create_context` (everything before
the native `CreateContext` call): three paths, gated on the native version
and the `EGL_KHR_create_context` extension exactly as in the source. -/
def assembleAttribs (egl_version : Int × Int) (extensions : List String) (api : Api)
    (version : Nat × Nat) (gl_debug : Bool) (rob : Robustness) :
    Except CreationError (List Int) :=
  if vge egl_version (1, 5) || extContains extensions "EGL_KHR_create_context" then
    match robustnessPush (supports_robustness egl_version extensions) extensions rob with
    | .error e => .error e
    | .ok (robAttrs, flags) =>
      let base := [egl.CONTEXT_MAJOR_VERSION, (version.1 : Int),
                   egl.CONTEXT_MINOR_VERSION, (version.2 : Int)]
      let dbg := if gl_debug && vge egl_version (1, 5) then
                   [egl.CONTEXT_OPENGL_DEBUG, egl.TRUE] else []
      .ok (base ++ robAttrs ++ dbg ++ [egl.CONTEXT_FLAGS_KHR, (flags : Int), egl.NONE])
  else if vge egl_version (1, 3) && api == Api.OpenGlEs then
    match rob with
    | .RobustNoResetNotification => .error .RobustnessNotSupported
    | .RobustLoseContextOnReset => .error .RobustnessNotSupported
    | _ => .ok [egl.CONTEXT_CLIENT_VERSION, (version.1 : Int), egl.NONE]
  else
    .ok [egl.NONE]

/-- Embeds `create_context`: assemble the attribute list, call the native
`eglCreateContext`, and classify a null return by the queried error code
(`BAD_ATTRIBUTE` ↦ version-not-supported, anything else ↦ `panic!`). -/
def create_context (env : Egl) (egl_version : Int × Int) (extensions : List String)
    (api : Api) (version : Nat × Nat) (config_id : Nat) (gl_debug : Bool)
    (rob : Robustness) : Res Nat × List NCall :=
  match assembleAttribs egl_version extensions api version gl_debug rob with
  | .error e => (.err e, [])
  | .ok attrs =>
    match env.createContext config_id attrs with
    | some c => (.ok c, [.nativeCreateContext config_id attrs])
    | none =>
      if env.getError == egl.BAD_ATTRIBUTE then
        (.err .OpenGlVersionNotSupported, [.nativeCreateContext config_id attrs, .getError])
      else
        (.fatal env.getError, [.nativeCreateContext config_id attrs, .getError])

/-! ## `enumerate_configs` -/

/-- One `attrib!` read: `eglGetConfigAttrib`, a zero return being the
`OsError` early return of the macro. -/
def attrib (env : Egl) (display config attr : Nat) : Except CreationError Int :=
  match env.getConfigAttrib display config attr with
  | some v => .ok v
  | none => .error (.OsError "eglGetConfigAttrib failed")

/-- The renderable/conformant filter of `enumerate_configs` (`continue`
condition), on the `as u32` casts of the two bitmasks. -/
def capabilityReject (api : Api) (version : Option (Nat × Nat))
    (renderable conformant : Nat) : Bool :=
  match api, version with
  | .OpenGlEs, some v =>
    (v.1 == 3 && (renderable &&& egl.OPENGL_ES3_BIT == 0 ||
                  conformant &&& egl.OPENGL_ES3_BIT == 0)) ||
    (v.1 == 2 && (renderable &&& egl.OPENGL_ES2_BIT == 0 ||
                  conformant &&& egl.OPENGL_ES2_BIT == 0)) ||
    (v.1 == 1 && (renderable &&& egl.OPENGL_ES_BIT == 0 ||
                  conformant &&& egl.OPENGL_ES_BIT == 0))
  | .OpenGlEs, none => false
  | .OpenGl, _ =>
    renderable &&& egl.OPENGL_BIT == 0 || conformant &&& egl.OPENGL_BIT == 0

/-- The per-config body of the `enumerate_configs` loop: apply the four
filters in source order (`.ok none` models `continue`), then derive the
`PixelFormat`.  Attribute reads happen lazily in source order, so a read
failure aborts only if control reaches it.  The `i32 & i32 == 0` surface
test is expressed on the `u32` images, which preserves zero-ness. -/
def analyzeConfig (env : Egl) (display : Nat) (api : Api)
    (version : Option (Nat × Nat)) (config_id : Nat) :
    Except CreationError (Option (Nat × PixelFormat)) :=
  match env.getConfigAttrib display config_id egl.RENDERABLE_TYPE with
  | none => .error (.OsError "eglGetConfigAttrib failed")
  | some renderable =>
  match env.getConfigAttrib display config_id egl.CONFORMANT with
  | none => .error (.OsError "eglGetConfigAttrib failed")
  | some conformant =>
  if capabilityReject api version (asU32 renderable) (asU32 conformant) then .ok none else
  match env.getConfigAttrib display config_id egl.SURFACE_TYPE with
  | none => .error (.OsError "eglGetConfigAttrib failed")
  | some surface =>
  if asU32 surface &&& (egl.WINDOW_BIT ||| egl.PBUFFER_BIT) == 0 then .ok none else
  match env.getConfigAttrib display config_id egl.TRANSPARENT_TYPE with
  | none => .error (.OsError "eglGetConfigAttrib failed")
  | some transparent =>
  if transparent != egl.NONE then .ok none else
  match env.getConfigAttrib display config_id egl.COLOR_BUFFER_TYPE with
  | none => .error (.OsError "eglGetConfigAttrib failed")
  | some cbt =>
  if cbt != egl.RGB_BUFFER then .ok none else
  match env.getConfigAttrib display config_id egl.CONFIG_CAVEAT with
  | none => .error (.OsError "eglGetConfigAttrib failed")
  | some caveat =>
  match env.getConfigAttrib display config_id egl.RED_SIZE with
  | none => .error (.OsError "eglGetConfigAttrib failed")
  | some red =>
  match env.getConfigAttrib display config_id egl.BLUE_SIZE with
  | none => .error (.OsError "eglGetConfigAttrib failed")
  | some blue =>
  match env.getConfigAttrib display config_id egl.GREEN_SIZE with
  | none => .error (.OsError "eglGetConfigAttrib failed")
  | some green =>
  match env.getConfigAttrib display config_id egl.ALPHA_SIZE with
  | none => .error (.OsError "eglGetConfigAttrib failed")
  | some alpha =>
  match env.getConfigAttrib display config_id egl.DEPTH_SIZE with
  | none => .error (.OsError "eglGetConfigAttrib failed")
  | some depth =>
  match env.getConfigAttrib display config_id egl.STENCIL_SIZE with
  | none => .error (.OsError "eglGetConfigAttrib failed")
  | some stencil =>
  match env.getConfigAttrib display config_id egl.SAMPLES with
  | none => .error (.OsError "eglGetConfigAttrib failed")
  | some samples =>
  .ok (some (config_id,
    { hardware_accelerated := caveat != egl.SLOW_CONFIG
      -- `red as u8 + blue as u8 + green as u8`, u8 (wrapping) arithmetic
      color_bits := (asU8 red + asU8 blue + asU8 green) % 256
      alpha_bits := asU8 alpha
      depth_bits := asU8 depth
      stencil_bits := asU8 stencil
      stereoscopy := false
      double_buffer := true
      multisampling := if samples == 0 || samples == 1 then none else some (asU16 samples)
      srgb := false }))

/-- The loop of `enumerate_configs` over the enumerated config ids, pushing
surviving configs in order. -/
def analyzeConfigs (env : Egl) (display : Nat) (api : Api)
    (version : Option (Nat × Nat)) : List Nat →
    Except CreationError (List (Nat × PixelFormat))
  | [] => .ok []
  | id :: rest =>
    match analyzeConfig env display api version id with
    | .error e => .error e
    | .ok none => analyzeConfigs env display api version rest
    | .ok (some p) =>
      match analyzeConfigs env display api version rest with
      | .error e => .error e
      | .ok l => .ok (p :: l)

/-- Embeds `enumerate_configs`: list all native config ids (`eglGetConfigs`), then
filter and map each.  `egl_version` is taken (as in the source signature)
but unused by the body. -/
def enumerate_configs (env : Egl) (display : Nat) (egl_version : Int × Int)
    (api : Api) (version : Option (Nat × Nat)) :
    Except CreationError (List (Nat × PixelFormat)) :=
  match env.getConfigs with
  | none => .error (.OsError "eglGetConfigs failed")
  | some ids => analyzeConfigs env display api version ids

/-! ## Negotiation (`Context::new`, version/API binding) -/

/-- The `builder.gl_version` match of `Context::new`: decides the API family
to bind and the optional explicit version, recording `eglBindAPI` calls.
With the spec's two-variant `Api` the source's dead wildcard arm
(`GlRequest::Specific(_, _)`) has no counterpart. -/
def negotiate (env : Egl) (egl_version : Int × Int) (req : GlRequest) :
    Res (Option (Nat × Nat) × Api) × List NCall :=
  match req with
  | .Latest =>
    if vge egl_version (1, 4) then
      if env.bindAPI egl.OPENGL_API then
        (.ok (none, Api.OpenGl), [.bindAPI egl.OPENGL_API])
      else if env.bindAPI egl.OPENGL_ES_API then
        (.ok (none, Api.OpenGlEs), [.bindAPI egl.OPENGL_API, .bindAPI egl.OPENGL_ES_API])
      else
        (.err .OpenGlVersionNotSupported,
         [.bindAPI egl.OPENGL_API, .bindAPI egl.OPENGL_ES_API])
    else (.ok (none, Api.OpenGlEs), [])
  | .Specific Api.OpenGlEs v =>
    if vge egl_version (1, 2) then
      if env.bindAPI egl.OPENGL_ES_API then
        (.ok (some v, Api.OpenGlEs), [.bindAPI egl.OPENGL_ES_API])
      else (.err .OpenGlVersionNotSupported, [.bindAPI egl.OPENGL_ES_API])
    else (.ok (some v, Api.OpenGlEs), [])
  | .Specific Api.OpenGl v =>
    if vlt egl_version (1, 4) then (.err .OpenGlVersionNotSupported, [])
    else if env.bindAPI egl.OPENGL_API then
      (.ok (some v, Api.OpenGl), [.bindAPI egl.OPENGL_API])
    else (.err .OpenGlVersionNotSupported, [.bindAPI egl.OPENGL_API])
  | .GlThenGles esv glv =>
    if vge egl_version (1, 4) then
      if env.bindAPI egl.OPENGL_API then
        (.ok (some glv, Api.OpenGl), [.bindAPI egl.OPENGL_API])
      else if env.bindAPI egl.OPENGL_ES_API then
        (.ok (some esv, Api.OpenGlEs), [.bindAPI egl.OPENGL_API, .bindAPI egl.OPENGL_ES_API])
      else
        (.err .OpenGlVersionNotSupported,
         [.bindAPI egl.OPENGL_API, .bindAPI egl.OPENGL_ES_API])
    else (.ok (some esv, Api.OpenGlEs), [])

/-- Embeds `ContextPrototype`: the negotiated, surface-pending builder state. -/
structure Prototype where
  builder : BuilderAttribs
  display : Nat
  egl_version : Int × Int
  extensions : List String
  api : Api
  version : Option (Nat × Nat)
  config_id : Nat
  pixel_format : PixelFormat
deriving DecidableEq, Repr

/-- Result type of `Context::new`; `unimplemented` is the
`unimplemented!()` panic taken on a sharing request. -/
inductive NewRes where
  | ok (p : Prototype)
  | err (e : CreationError)
  | fatal (code : Nat)
  | unimplemented
deriving DecidableEq, Repr

/-- Embeds `Context::new`: sharing check, extension query without a display,
display acquisition, initialization, the real extension query, negotiation,
config enumeration and the host's pixel-format choice, producing a
`ContextPrototype`.  Config-attribute reads inside enumeration are
summarized by the single `.getConfigs` trace entry. -/
def contextNew (env : Egl) (builder : BuilderAttribs) : NewRes × List NCall :=
  if builder.sharing then (.unimplemented, [])
  else
    let extPre : Option (List String) :=
      match env.queryStringNoDisplay with
      | none => none
      | some s => some (splitSpaces s)
    match env.getDisplay with
    | none => (.err (.OsError "No EGL display connection available"),
               [.queryStringNoDisplay, .getDisplay])
    | some display =>
      match env.initDisplay with
      | none => (.err (.OsError "eglInitialize failed"),
                 [.queryStringNoDisplay, .getDisplay, .initDisplay])
      | some egl_version =>
        let ext : List String × List NCall :=
          match extPre with
          | some exts => (exts, [])
          | none =>
            if vge egl_version (1, 2) then
              (splitSpaces env.queryStringDisplay, [.queryStringDisplay])
            else ([], [])
        let baseTrace := [NCall.queryStringNoDisplay, NCall.getDisplay, NCall.initDisplay] ++ ext.2
        match negotiate env egl_version builder.gl_version with
        | (.err e, bt) => (.err e, baseTrace ++ bt)
        | (.fatal n, bt) => (.fatal n, baseTrace ++ bt)
        | (.ok (version, api), bt) =>
          match enumerate_configs env display egl_version api version with
          | .error e => (.err e, baseTrace ++ bt ++ [.getConfigs])
          | .ok configs =>
            match env.choosePixelFormat configs with
            | .error e => (.err e, baseTrace ++ bt ++ [.getConfigs])
            | .ok (config_id, pixel_format) =>
              (.ok { builder := builder, display := display, egl_version := egl_version,
                     extensions := ext.1, api := api, version := version,
                     config_id := config_id, pixel_format := pixel_format },
               baseTrace ++ bt ++ [.getConfigs])

/-! ## `finish` / `finish_pbuffer` / `finish_impl` and the `Context` -/

/-- The finished `Context` (the `egl` dispatch-table field carries no data). -/
structure Context where
  display : Nat
  context : Nat
  surface : Nat
  api : Api
  pixel_format : PixelFormat
deriving DecidableEq, Repr

/-- Assembling the final `Context` value at the end of `finish_impl`. -/
def mkContext (p : Prototype) (ctxt surface : Nat) : Context :=
  { display := p.display, context := ctxt, surface := surface,
    api := p.api, pixel_format := p.pixel_format }

/-- One `create_context` call as `finish_impl` makes it, at a given version. -/
def ccAt (env : Egl) (p : Prototype) (v : Nat × Nat) : Res Nat × List NCall :=
  create_context env p.egl_version p.extensions p.api v p.config_id
    p.builder.gl_debug p.builder.gl_robustness

/-- One `if let Ok(ctxt) = create_context(...)` step of the fallback chain:
success builds the context, an `Err` falls through to `onErr`, a panic
propagates.  Each step is marked in the trace by `.createAttempt`. -/
def fallbackStep (env : Egl) (p : Prototype) (surface : Nat) (v : Nat × Nat)
    (onErr : Res Context × List NCall) : Res Context × List NCall :=
  match (ccAt env p v).1 with
  | .ok c => (.ok (mkContext p c surface), .createAttempt v :: (ccAt env p v).2)
  | .err _ => (onErr.1, (.createAttempt v :: (ccAt env p v).2) ++ onErr.2)
  | .fatal n => (.fatal n, .createAttempt v :: (ccAt env p v).2)

/-- Embeds `finish_impl`: explicit negotiated version ⇒ a single `create_context`
whose result is propagated (`try!`); otherwise the GLES fallback chain
(2,0), (1,0) or the desktop-GL chain (3,2), (3,1), (1,0), exhaustion
becoming `OpenGlVersionNotSupported`. -/
def finish_impl (env : Egl) (p : Prototype) (surface : Nat) :
    Res Context × List NCall :=
  match p.version with
  | some v =>
    match (ccAt env p v).1 with
    | .ok c => (.ok (mkContext p c surface), .createAttempt v :: (ccAt env p v).2)
    | .err e => (.err e, .createAttempt v :: (ccAt env p v).2)
    | .fatal n => (.fatal n, .createAttempt v :: (ccAt env p v).2)
  | none =>
    if p.api == Api.OpenGlEs then
      fallbackStep env p surface (2, 0)
        (fallbackStep env p surface (1, 0)
          (.err .OpenGlVersionNotSupported, []))
    else
      fallbackStep env p surface (3, 2)
        (fallbackStep env p surface (3, 1)
          (fallbackStep env p surface (1, 0)
            (.err .OpenGlVersionNotSupported, [])))

/-- Embeds `finish(native_window)`: create the window surface (null ⇒ `OsError`),
then run the shared completion step. -/
def finish (env : Egl) (p : Prototype) : Res Context × List NCall :=
  match env.createWindowSurface with
  | none => (.err (.OsError "eglCreateWindowSurface failed"), [.createWindowSurface])
  | some surface =>
    let r := finish_impl env p surface
    (r.1, .createWindowSurface :: r.2)

/-- The pbuffer attribute list of `finish_pbuffer` (default 800×600). -/
def pbufferAttribs (dimensions : Option (Nat × Nat)) : List Int :=
  let d := dimensions.getD (800, 600)
  [egl.WIDTH, (d.1 : Int), egl.HEIGHT, (d.2 : Int), egl.NONE]

/-- Embeds `finish_pbuffer()`: create the pbuffer surface (null ⇒ `OsError`), then
run the shared completion step. -/
def finish_pbuffer (env : Egl) (p : Prototype) : Res Context × List NCall :=
  let attrs := pbufferAttribs p.builder.dimensions
  match env.createPbufferSurface attrs with
  | none => (.err (.OsError "eglCreatePbufferSurface failed"), [.createPbufferSurface attrs])
  | some surface =>
    let r := finish_impl env p surface
    (r.1, .createPbufferSurface attrs :: r.2)

/-! ## `Context` runtime contract -/

/-- Embeds `Drop for Context`: the native calls made on destruction, in order.
No `MakeCurrent(0, 0)` is issued first (see the source comment). -/
def dropContext (c : Context) : List NCall :=
  [.destroyContext c.display c.context,
   .destroySurface c.display c.surface,
   .terminate c.display]

/-- Result of `make_current` / `swap_buffers`: success, the typed
`ContextError::ContextLost`, or the `panic!` path with the native code. -/
inductive CtxRes where
  | ok
  | contextLost
  | fatal (code : Nat)
deriving DecidableEq, Repr

/-- Embeds `make_current`: a zero native return is classified by `eglGetError`
(`CONTEXT_LOST` ↦ the typed error, anything else ↦ `panic!`). -/
def make_current (env : Egl) (c : Context) : CtxRes :=
  if env.makeCurrentRet c.display c.surface c.surface c.context then .ok
  else if env.getError == egl.CONTEXT_LOST then .contextLost
  else .fatal env.getError

/-- Embeds `swap_buffers`: same classification as `make_current`. -/
def swap_buffers (env : Egl) (c : Context) : CtxRes :=
  if env.swapBuffersRet c.display c.surface then .ok
  else if env.getError == egl.CONTEXT_LOST then .contextLost
  else .fatal env.getError

/-! ## Trace observations -/

/-- The versions `finish_impl` attempted, in order (the `.createAttempt`
markers of the trace). -/
def attemptsOf : List NCall → List (Nat × Nat)
  | [] => []
  | NCall.createAttempt v :: t => v :: attemptsOf t
  | _ :: t => attemptsOf t

/-- Returns `true` iff the trace contains no `DestroyContext`, `DestroySurface` or
`Terminate` call. -/
def noTeardown (t : List NCall) : Bool :=
  t.all fun c =>
    match c with
    | .destroyContext _ _ => false
    | .destroySurface _ _ => false
    | .terminate _ => false
    | _ => true

/-! ## Concrete mock instances (used by witnesses and counterexamples) -/

/-- A benign pixel format for concrete prototypes. -/
def pfBase : PixelFormat :=
  { hardware_accelerated := true, color_bits := 24, alpha_bits := 8,
    depth_bits := 24, stencil_bits := 8, stereoscopy := false,
    double_buffer := true, multisampling := none, srgb := false }

/-- A mock native layer where everything succeeds and `eglGetError` reports
the attribute-rejection code. -/
def envBase : Egl :=
  { queryStringNoDisplay := none
    getDisplay := some 1
    initDisplay := some (1, 4)
    queryStringDisplay := ""
    bindAPI := fun _ => true
    getConfigs := some []
    getConfigAttrib := fun _ _ _ => some 0
    createWindowSurface := some 2
    createPbufferSurface := fun _ => some 3
    createContext := fun _ _ => some 4
    getError := egl.BAD_ATTRIBUTE
    makeCurrentRet := fun _ _ _ _ => true
    swapBuffersRet := fun _ _ => true
    choosePixelFormat := fun _ => .error .NoAvailablePixelFormat }

/-- A builder requesting nothing special. -/
def builderBase : BuilderAttribs :=
  { sharing := false, gl_version := .Latest, gl_debug := false,
    gl_robustness := .NotRobust, dimensions := none }

/-- A negotiated prototype: desktop GL, no explicit version, EGL 1.4. -/
def protoBase : Prototype :=
  { builder := builderBase, display := 1, egl_version := (1, 4),
    extensions := [], api := Api.OpenGl, version := none,
    config_id := 7, pixel_format := pfBase }

/-- The mock with `eglCreateContext` always failing with `BAD_ATTRIBUTE`. -/
def envCreateFails : Egl :=
  { envBase with createContext := fun _ _ => none }

/-- The mock with `MakeCurrent`/`SwapBuffers` failing and `eglGetError`
reporting the context-lost code. -/
def envLost : Egl :=
  { envBase with makeCurrentRet := fun _ _ _ _ => false,
                 swapBuffersRet := fun _ _ => false,
                 getError := egl.CONTEXT_LOST }

/-- A concrete context value. -/
def ctxBase : Context :=
  { display := 1, context := 4, surface := 2, api := Api.OpenGl,
    pixel_format := pfBase }

/-- A mock reporting exactly one config whose renderable/conformant masks
are zero but which passes the surface/transparency/color filters. -/
def envNoBits : Egl :=
  { envBase with
    getConfigs := some [5]
    getConfigAttrib := fun _ _ a =>
      if a = egl.SURFACE_TYPE then some 4
      else if a = egl.TRANSPARENT_TYPE then some 0x3038
      else if a = egl.COLOR_BUFFER_TYPE then some 0x308E
      else some 0 }

/-- The pixel format `envNoBits`'s single config maps to. -/
def pfZero : PixelFormat :=
  { hardware_accelerated := true, color_bits := 0, alpha_bits := 0,
    depth_bits := 0, stencil_bits := 0, stereoscopy := false,
    double_buffer := true, multisampling := none, srgb := false }

/-- A mock reporting one realistic desktop-GL config (8/8/8/8, depth 24,
stencil 8, 4 samples). -/
def envOneConfig : Egl :=
  { envBase with
    getConfigs := some [5]
    getConfigAttrib := fun _ _ a =>
      if a = egl.RENDERABLE_TYPE then some 8
      else if a = egl.CONFORMANT then some 8
      else if a = egl.SURFACE_TYPE then some 4
      else if a = egl.TRANSPARENT_TYPE then some 0x3038
      else if a = egl.COLOR_BUFFER_TYPE then some 0x308E
      else if a = egl.RED_SIZE then some 8
      else if a = egl.GREEN_SIZE then some 8
      else if a = egl.BLUE_SIZE then some 8
      else if a = egl.ALPHA_SIZE then some 8
      else if a = egl.DEPTH_SIZE then some 24
      else if a = egl.STENCIL_SIZE then some 8
      else if a = egl.SAMPLES then some 4
      else some 0 }

/-- The pixel format `envOneConfig`'s single config maps to. -/
def pfOne : PixelFormat :=
  { hardware_accelerated := true, color_bits := 24, alpha_bits := 8,
    depth_bits := 24, stencil_bits := 8, stereoscopy := false,
    double_buffer := true, multisampling := some 4, srgb := false }

/-! # Theorems -/

/-! ## Trace helper lemmas -/

theorem attemptsOf_append (a b : List NCall) :
    attemptsOf (a ++ b) = attemptsOf a ++ attemptsOf b := by
  induction a with
  | nil => rfl
  | cons c t ih => cases c <;> simp [attemptsOf, ih]

theorem attemptsOf_create (env : Egl) (ev : Int × Int) (exts : List String)
    (api : Api) (v : Nat × Nat) (cfg : Nat) (dbg : Bool) (rob : Robustness) :
    attemptsOf (create_context env ev exts api v cfg dbg rob).2 = [] := by
  unfold create_context
  rcases hA : assembleAttribs ev exts api v dbg rob with e | attrs
  · simp [hA, attemptsOf]
  · rcases hC : env.createContext cfg attrs with _ | c
    · by_cases h : (env.getError == egl.BAD_ATTRIBUTE) = true <;>
        simp [hA, hC, h, attemptsOf]
    · simp [hA, hC, attemptsOf]

theorem noTeardown_append (a b : List NCall) :
    noTeardown (a ++ b) = (noTeardown a && noTeardown b) := by
  simp [noTeardown, List.all_append]

theorem noTeardown_create (env : Egl) (ev : Int × Int) (exts : List String)
    (api : Api) (v : Nat × Nat) (cfg : Nat) (dbg : Bool) (rob : Robustness) :
    noTeardown (create_context env ev exts api v cfg dbg rob).2 = true := by
  unfold create_context
  rcases hA : assembleAttribs ev exts api v dbg rob with e | attrs
  · simp [hA, noTeardown]
  · rcases hC : env.createContext cfg attrs with _ | c
    · by_cases h : (env.getError == egl.BAD_ATTRIBUTE) = true <;>
        simp [hA, hC, h, noTeardown]
    · simp [hA, hC, noTeardown]

theorem attemptsOf_ccAt (env : Egl) (p : Prototype) (v : Nat × Nat) :
    attemptsOf (ccAt env p v).2 = [] :=
  attemptsOf_create env p.egl_version p.extensions p.api v p.config_id
    p.builder.gl_debug p.builder.gl_robustness

theorem noTeardown_ccAt (env : Egl) (p : Prototype) (v : Nat × Nat) :
    noTeardown (ccAt env p v).2 = true :=
  noTeardown_create env p.egl_version p.extensions p.api v p.config_id
    p.builder.gl_debug p.builder.gl_robustness

theorem noTeardown_cons_attempt (v : Nat × Nat) (t : List NCall) :
    noTeardown (NCall.createAttempt v :: t) = noTeardown t := by
  simp [noTeardown]

theorem attemptsOf_cons_attempt (v : Nat × Nat) (t : List NCall) :
    attemptsOf (NCall.createAttempt v :: t) = v :: attemptsOf t := by
  simp [attemptsOf]

theorem fallbackStep_ok (env : Egl) (p : Prototype) (s : Nat) (v : Nat × Nat)
    (onErr : Res Context × List NCall) (c : Nat) (h : (ccAt env p v).1 = .ok c) :
    fallbackStep env p s v onErr =
      (.ok (mkContext p c s), .createAttempt v :: (ccAt env p v).2) := by
  unfold fallbackStep; rw [h]

theorem fallbackStep_err (env : Egl) (p : Prototype) (s : Nat) (v : Nat × Nat)
    (onErr : Res Context × List NCall) (e : CreationError)
    (h : (ccAt env p v).1 = .err e) :
    fallbackStep env p s v onErr =
      (onErr.1, (.createAttempt v :: (ccAt env p v).2) ++ onErr.2) := by
  unfold fallbackStep; rw [h]

theorem fallbackStep_fatal (env : Egl) (p : Prototype) (s : Nat) (v : Nat × Nat)
    (onErr : Res Context × List NCall) (n : Nat)
    (h : (ccAt env p v).1 = .fatal n) :
    fallbackStep env p s v onErr =
      (.fatal n, .createAttempt v :: (ccAt env p v).2) := by
  unfold fallbackStep; rw [h]

theorem noTeardown_fallbackStep (env : Egl) (p : Prototype) (s : Nat)
    (v : Nat × Nat) (onErr : Res Context × List NCall)
    (h : noTeardown onErr.2 = true) :
    noTeardown (fallbackStep env p s v onErr).2 = true := by
  rcases hc : (ccAt env p v).1 with c | e | n
  · rw [fallbackStep_ok env p s v onErr c hc]
    rw [show (Res.ok (mkContext p c s), NCall.createAttempt v :: (ccAt env p v).2).2 =
          NCall.createAttempt v :: (ccAt env p v).2 from rfl,
        noTeardown_cons_attempt]
    exact noTeardown_ccAt env p v
  · rw [fallbackStep_err env p s v onErr e hc]
    rw [show (onErr.1, (NCall.createAttempt v :: (ccAt env p v).2) ++ onErr.2).2 =
          (NCall.createAttempt v :: (ccAt env p v).2) ++ onErr.2 from rfl,
        noTeardown_append, noTeardown_cons_attempt, noTeardown_ccAt env p v, h]
    rfl
  · rw [fallbackStep_fatal env p s v onErr n hc]
    rw [show (Res.fatal n, NCall.createAttempt v :: (ccAt env p v).2).2 =
          NCall.createAttempt v :: (ccAt env p v).2 from rfl,
        noTeardown_cons_attempt]
    exact noTeardown_ccAt env p v

theorem noTeardown_finish_impl (env : Egl) (p : Prototype) (s : Nat) :
    noTeardown (finish_impl env p s).2 = true := by
  have hbase :
      noTeardown (((Res.err CreationError.OpenGlVersionNotSupported : Res Context),
        ([] : List NCall)).2) = true := rfl
  rcases hv : p.version with _ | v
  · unfold finish_impl
    simp only [hv]
    by_cases hapi : (p.api == Api.OpenGlEs) = true
    · rw [if_pos hapi]
      exact noTeardown_fallbackStep _ _ _ _ _
        (noTeardown_fallbackStep _ _ _ _ _ hbase)
    · rw [if_neg hapi]
      exact noTeardown_fallbackStep _ _ _ _ _
        (noTeardown_fallbackStep _ _ _ _ _
          (noTeardown_fallbackStep _ _ _ _ _ hbase))
  · unfold finish_impl
    simp only [hv]
    rcases hc : (ccAt env p v).1 with c | e | n <;>
      simp only [hc, noTeardown_cons_attempt] <;>
      exact noTeardown_ccAt env p v

/-- C9:  Whenever the builder carries a context-sharing request,
`Context::new` fails immediately with the `unimplemented!()` hard failure,
before any native call is made (the call trace is empty: no extension
query, no display acquisition, no initialization, no negotiation), and
this failure is the value handed to the immediate caller. -/
theorem sharing_unimplemented (env : Egl) (b : BuilderAttribs)
    (h : b.sharing = true) :
    contextNew env b = (NewRes.unimplemented, []) := by
  simp [contextNew, h]

/-- Witness for `sharing_unimplemented` at a concrete builder. -/
theorem sharing_unimplemented_witness :
    ({ builderBase with sharing := true } : BuilderAttribs).sharing = true ∧
    contextNew envBase { builderBase with sharing := true } =
      (NewRes.unimplemented, []) :=
  ⟨rfl, sharing_unimplemented envBase { builderBase with sharing := true } rfl⟩

/-- C5 counterexample:  The claim fails on the empty-string input: Rust
`"".split(' ')` yields one empty field, so parsing the empty capability
string gives the one-element set `{""}` and membership of the name `""` is
`true`, not false for every name. -/
theorem parse_empty_string_contains_empty :
    parseExtensions (some "") = [""] ∧
    extContains (parseExtensions (some "")) "" = true := by
  decide

/-- C5 (amended):  Extension parsing splits on single spaces; the absent
input yields a set whose membership is false for every name; the
empty-string input yields a set whose membership is false for every
*nonempty* name (it contains exactly the empty name); `"A B C"` yields a
set containing exactly the three names `A`, `B` and `C`. -/
theorem parse_extensions_spec :
    (∀ n : String, extContains (parseExtensions none) n = false) ∧
    (∀ n : String, n ≠ "" → extContains (parseExtensions (some "")) n = false) ∧
    (∀ n : String,
      extContains (parseExtensions (some "A B C")) n = true ↔
        (n = "A" ∨ n = "B" ∨ n = "C")) := by
  refine ⟨fun n => rfl, fun n hn => ?_, fun n => ?_⟩
  · rw [show parseExtensions (some "") = [""] from rfl]
    simpa [extContains] using hn
  · rw [show parseExtensions (some "A B C") = ["A", "B", "C"] from rfl]
    simp [extContains]

/-- Witness for `parse_extensions_spec` at concrete names. -/
theorem parse_extensions_spec_witness :
    extContains (parseExtensions none) "EGL_KHR_create_context" = false ∧
    extContains (parseExtensions (some "")) "EGL_KHR_create_context" = false ∧
    extContains (parseExtensions (some "A B C")) "B" = true :=
  ⟨parse_extensions_spec.1 "EGL_KHR_create_context",
   parse_extensions_spec.2.1 "EGL_KHR_create_context" (by decide),
   (parse_extensions_spec.2.2 "B").mpr (Or.inr (Or.inl rfl))⟩

/-- C4:  `make_current` and `swap_buffers` map exactly one native
failure condition to a typed error: a zero native return with queried
error code `CONTEXT_LOST` yields `ContextLost`; a zero return with any
other code takes the fatal (`panic!`) path, never a typed error; a
non-zero return yields success. -/
theorem context_error_mapping (env : Egl) (c : Context) :
    (env.makeCurrentRet c.display c.surface c.surface c.context = true →
      make_current env c = .ok) ∧
    (env.makeCurrentRet c.display c.surface c.surface c.context = false →
      env.getError = egl.CONTEXT_LOST → make_current env c = .contextLost) ∧
    (env.makeCurrentRet c.display c.surface c.surface c.context = false →
      env.getError ≠ egl.CONTEXT_LOST →
      make_current env c = .fatal env.getError ∧
      make_current env c ≠ .contextLost ∧ make_current env c ≠ .ok) ∧
    (env.swapBuffersRet c.display c.surface = true →
      swap_buffers env c = .ok) ∧
    (env.swapBuffersRet c.display c.surface = false →
      env.getError = egl.CONTEXT_LOST → swap_buffers env c = .contextLost) ∧
    (env.swapBuffersRet c.display c.surface = false →
      env.getError ≠ egl.CONTEXT_LOST →
      swap_buffers env c = .fatal env.getError ∧
      swap_buffers env c ≠ .contextLost ∧ swap_buffers env c ≠ .ok) := by
  unfold make_current swap_buffers
  refine ⟨fun h => by simp [h], fun h he => by simp [h, he],
          fun h he => ?_, fun h => by simp [h], fun h he => by simp [h, he],
          fun h he => ?_⟩ <;>
    simp [h, he]

/-- Witness for `context_error_mapping`: the context-lost mapping and the
success path at concrete mocks. -/
theorem context_error_mapping_witness :
    make_current envLost ctxBase = .contextLost ∧
    swap_buffers envLost ctxBase = .contextLost ∧
    make_current envBase ctxBase = .ok :=
  ⟨(context_error_mapping envLost ctxBase).2.1 rfl rfl,
   (context_error_mapping envLost ctxBase).2.2.2.2.1 rfl rfl,
   (context_error_mapping envBase ctxBase).1 rfl⟩

/-- C2:  For every successfully constructed `Context`, destruction
performs exactly three native calls in the fixed order: destroy the
context handle, destroy the surface handle, terminate the display — and
the destruction trace contains no `MakeCurrent` call (no attempt to clear
the thread's current-context state), regardless of history. -/
theorem drop_order (env : Egl) (p : Prototype) (s : Nat) (c : Context)
    (h : (finish_impl env p s).1 = .ok c) :
    dropContext c =
      [.destroyContext c.display c.context,
       .destroySurface c.display c.surface,
       .terminate c.display] ∧
    (dropContext c).length = 3 ∧
    (∀ call ∈ dropContext c, ∀ d dr rd ct,
      call ≠ NCall.makeCurrentCall d dr rd ct) := by
  refine ⟨rfl, rfl, ?_⟩
  intro call hc d dr rd ct
  simp only [dropContext, List.mem_cons, List.not_mem_nil, or_false] at hc
  rcases hc with h1 | h1 | h1 <;> simp [h1]

/-- Witness for `drop_order`: a concretely constructed context and its
destruction trace. -/
theorem drop_order_witness :
    (finish_impl envBase protoBase 2).1 = Res.ok (mkContext protoBase 4 2) ∧
    dropContext (mkContext protoBase 4 2) =
      [.destroyContext 1 4, .destroySurface 1 2, .terminate 1] := by
  have h : (finish_impl envBase protoBase 2).1 = Res.ok (mkContext protoBase 4 2) := by
    decide
  exact ⟨h, (drop_order envBase protoBase 2 (mkContext protoBase 4 2) h).1⟩

/-- C3 counterexample:  On the legacy desktop-GL path (EGL 1.4, no
extensions) robustness support is absent — the native version is too old
and the extension is missing — yet a "Require" policy does not fail with
`RobustnessUnsupported`: `create_context` silently ignores it and succeeds
when the native call does. -/
theorem robustness_require_ignored_legacy_gl :
    supports_robustness (1, 4) [] = false ∧
    assembleAttribs (1, 4) [] Api.OpenGl (3, 2) false
        Robustness.RobustNoResetNotification = .ok [egl.NONE] ∧
    (create_context envBase (1, 4) [] Api.OpenGl (3, 2) 7 false
        Robustness.RobustNoResetNotification).1 = .ok 4 := by
  decide

/-- C3 (amended):  On the extension-capable attribute path, absent
robustness support makes a "Require" (`Robust*`) policy fail with
`RobustnessNotSupported` while a "Try" policy succeeds with no
reset-notification attribute and a zero flags word; the legacy GLES
attribute path (native ≥ 1.3, no creation extension) likewise rejects
"Require" policies; with support present, the reset-notification-strategy
attribute carries the requested strategy and the robust-access flag bit is
accumulated into the flags word.  (On the remaining legacy paths — old
desktop GL, or GLES below 1.3 — the policy is silently ignored, as the
counterexample exhibits.) -/
theorem robustness_gating (egl_version : Int × Int) (extensions : List String)
    (api : Api) (version : Nat × Nat) (gl_debug : Bool) :
    ((vge egl_version (1, 5) || extContains extensions "EGL_KHR_create_context") = true →
      supports_robustness egl_version extensions = false →
      assembleAttribs egl_version extensions api version gl_debug
          .RobustNoResetNotification = .error .RobustnessNotSupported ∧
      assembleAttribs egl_version extensions api version gl_debug
          .RobustLoseContextOnReset = .error .RobustnessNotSupported) ∧
    ((vge egl_version (1, 5) || extContains extensions "EGL_KHR_create_context") = true →
      supports_robustness egl_version extensions = false →
      assembleAttribs egl_version extensions api version gl_debug
          .TryRobustNoResetNotification =
        .ok [egl.CONTEXT_MAJOR_VERSION, (version.1 : Int),
             egl.CONTEXT_MINOR_VERSION, (version.2 : Int),
             egl.CONTEXT_FLAGS_KHR, 0, egl.NONE] ∧
      assembleAttribs egl_version extensions api version gl_debug
          .TryRobustLoseContextOnReset =
        .ok [egl.CONTEXT_MAJOR_VERSION, (version.1 : Int),
             egl.CONTEXT_MINOR_VERSION, (version.2 : Int),
             egl.CONTEXT_FLAGS_KHR, 0, egl.NONE]) ∧
    ((vge egl_version (1, 5) || extContains extensions "EGL_KHR_create_context") = false →
      (vge egl_version (1, 3) && (api == Api.OpenGlEs)) = true →
      assembleAttribs egl_version extensions api version gl_debug
          .RobustNoResetNotification = .error .RobustnessNotSupported ∧
      assembleAttribs egl_version extensions api version gl_debug
          .RobustLoseContextOnReset = .error .RobustnessNotSupported) ∧
    ((vge egl_version (1, 5) || extContains extensions "EGL_KHR_create_context") = true →
      supports_robustness egl_version extensions = true →
      assembleAttribs egl_version extensions api version gl_debug
          .RobustNoResetNotification =
        .ok ([egl.CONTEXT_MAJOR_VERSION, (version.1 : Int),
              egl.CONTEXT_MINOR_VERSION, (version.2 : Int),
              egl.CONTEXT_OPENGL_RESET_NOTIFICATION_STRATEGY, egl.NO_RESET_NOTIFICATION] ++
             (if gl_debug && vge egl_version (1, 5) then
                [egl.CONTEXT_OPENGL_DEBUG, egl.TRUE] else []) ++
             [egl.CONTEXT_FLAGS_KHR, (egl.CONTEXT_OPENGL_ROBUST_ACCESS : Int), egl.NONE]) ∧
      assembleAttribs egl_version extensions api version gl_debug
          .TryRobustNoResetNotification =
        .ok ([egl.CONTEXT_MAJOR_VERSION, (version.1 : Int),
              egl.CONTEXT_MINOR_VERSION, (version.2 : Int),
              egl.CONTEXT_OPENGL_RESET_NOTIFICATION_STRATEGY, egl.NO_RESET_NOTIFICATION] ++
             (if gl_debug && vge egl_version (1, 5) then
                [egl.CONTEXT_OPENGL_DEBUG, egl.TRUE] else []) ++
             [egl.CONTEXT_FLAGS_KHR, (egl.CONTEXT_OPENGL_ROBUST_ACCESS : Int), egl.NONE]) ∧
      assembleAttribs egl_version extensions api version gl_debug
          .RobustLoseContextOnReset =
        .ok ([egl.CONTEXT_MAJOR_VERSION, (version.1 : Int),
              egl.CONTEXT_MINOR_VERSION, (version.2 : Int),
              egl.CONTEXT_OPENGL_RESET_NOTIFICATION_STRATEGY, egl.LOSE_CONTEXT_ON_RESET] ++
             (if gl_debug && vge egl_version (1, 5) then
                [egl.CONTEXT_OPENGL_DEBUG, egl.TRUE] else []) ++
             [egl.CONTEXT_FLAGS_KHR, (egl.CONTEXT_OPENGL_ROBUST_ACCESS : Int), egl.NONE]) ∧
      assembleAttribs egl_version extensions api version gl_debug
          .TryRobustLoseContextOnReset =
        .ok ([egl.CONTEXT_MAJOR_VERSION, (version.1 : Int),
              egl.CONTEXT_MINOR_VERSION, (version.2 : Int),
              egl.CONTEXT_OPENGL_RESET_NOTIFICATION_STRATEGY, egl.LOSE_CONTEXT_ON_RESET] ++
             (if gl_debug && vge egl_version (1, 5) then
                [egl.CONTEXT_OPENGL_DEBUG, egl.TRUE] else []) ++
             [egl.CONTEXT_FLAGS_KHR, (egl.CONTEXT_OPENGL_ROBUST_ACCESS : Int), egl.NONE])) := by
  refine ⟨fun hp hs => ?_, fun hp hs => ?_, fun hp h13 => ?_, fun hp hs => ?_⟩
  · constructor <;> simp [assembleAttribs, hp, robustnessPush, hs]
  · have h15 : vge egl_version (1, 5) = false := by
      have := hs
      unfold supports_robustness at this
      exact (Bool.or_eq_false_iff.mp this).1
    have hext : extContains extensions "EGL_KHR_create_context" = true := by
      simpa [h15] using hp
    constructor <;> simp [assembleAttribs, hp, robustnessPush, hs, h15, hext]
  · have hp' : (vge egl_version (1, 5) || extContains extensions "EGL_KHR_create_context") ≠ true := by
      simp [hp]
    constructor <;> simp [assembleAttribs, hp, hp', h13]
  · refine ⟨?_, ?_, ?_, ?_⟩ <;> simp [assembleAttribs, hp, robustnessPush, hs]

/-- Witness for `robustness_gating`: concrete instances of the Require
failure, the Try omission, and the supported emission. -/
theorem robustness_gating_witness :
    assembleAttribs (1, 4) ["EGL_KHR_create_context"] Api.OpenGl (3, 2) false
        .RobustNoResetNotification = .error .RobustnessNotSupported ∧
    assembleAttribs (1, 4) ["EGL_KHR_create_context"] Api.OpenGl (3, 2) false
        .TryRobustNoResetNotification =
      .ok [egl.CONTEXT_MAJOR_VERSION, 3, egl.CONTEXT_MINOR_VERSION, 2,
           egl.CONTEXT_FLAGS_KHR, 0, egl.NONE] ∧
    assembleAttribs (1, 3) [] Api.OpenGlEs (2, 0) false
        .RobustLoseContextOnReset = .error .RobustnessNotSupported ∧
    assembleAttribs (1, 5) [] Api.OpenGl (3, 2) false
        .RobustLoseContextOnReset =
      .ok [egl.CONTEXT_MAJOR_VERSION, 3, egl.CONTEXT_MINOR_VERSION, 2,
           egl.CONTEXT_OPENGL_RESET_NOTIFICATION_STRATEGY, egl.LOSE_CONTEXT_ON_RESET,
           egl.CONTEXT_FLAGS_KHR, (egl.CONTEXT_OPENGL_ROBUST_ACCESS : Int), egl.NONE] := by
  refine ⟨?_, ?_, ?_, ?_⟩
  · exact ((robustness_gating (1, 4) ["EGL_KHR_create_context"] Api.OpenGl (3, 2) false).1
      (by decide) (by decide)).1
  · have := ((robustness_gating (1, 4) ["EGL_KHR_create_context"] Api.OpenGl (3, 2) false).2.1
      (by decide) (by decide)).1
    simpa using this
  · exact ((robustness_gating (1, 3) [] Api.OpenGlEs (2, 0) false).2.2.1
      (by decide) (by decide)).2
  · have := ((robustness_gating (1, 5) [] Api.OpenGl (3, 2) false).2.2.2
      (by decide) (by decide)).2.2.1
    simpa using this

/-- C8 counterexample:  At native version 1.2 — older, without generic
creation extensions — and target API GLES, the assembled attribute list is
just the terminator: it does not contain the claimed "client version"
attribute (that path requires native ≥ 1.3). -/
theorem legacy_gles_below_13_no_client_version :
    assembleAttribs (1, 2) [] Api.OpenGlEs (2, 0) false Robustness.NotRobust =
      .ok [egl.NONE] ∧
    [egl.NONE] ≠ [egl.CONTEXT_CLIENT_VERSION, 2, egl.NONE] := by
  decide

/-- C8 (amended):  Every successfully assembled attribute list ends with
the terminator sentinel; on the extension-capable path the accumulated
flags value (preceded by its key) stands immediately before the
terminator; on the legacy path with target API GLES **and native version
at least 1.3**, the list is exactly the client-version attribute carrying
the requested major version, followed by the terminator.  (Below 1.3 the
list is just the terminator, as the counterexample exhibits.) -/
theorem attrib_list_shape (egl_version : Int × Int) (extensions : List String)
    (api : Api) (version : Nat × Nat) (gl_debug : Bool) (rob : Robustness) :
    (∀ attrs, assembleAttribs egl_version extensions api version gl_debug rob =
        .ok attrs → attrs ≠ [] ∧ attrs.getLast? = some egl.NONE) ∧
    ((vge egl_version (1, 5) || extContains extensions "EGL_KHR_create_context") = true →
      ∀ attrs, assembleAttribs egl_version extensions api version gl_debug rob =
        .ok attrs →
      ∃ pre flags, attrs = pre ++ [egl.CONTEXT_FLAGS_KHR, flags, egl.NONE]) ∧
    ((vge egl_version (1, 5) || extContains extensions "EGL_KHR_create_context") = false →
      vge egl_version (1, 3) = true → api = Api.OpenGlEs →
      ∀ attrs, assembleAttribs egl_version extensions api version gl_debug rob =
        .ok attrs →
      attrs = [egl.CONTEXT_CLIENT_VERSION, (version.1 : Int), egl.NONE]) := by
  have hext : (vge egl_version (1, 5) || extContains extensions "EGL_KHR_create_context") = true →
      ∀ attrs, assembleAttribs egl_version extensions api version gl_debug rob = .ok attrs →
      ∃ pre flags, attrs = pre ++ [egl.CONTEXT_FLAGS_KHR, flags, egl.NONE] := by
    intro hp attrs h
    unfold assembleAttribs at h
    rw [hp] at h
    simp only [if_true] at h
    rcases hr : robustnessPush (supports_robustness egl_version extensions) extensions rob
      with e | ⟨robAttrs, flags⟩ <;> rw [hr] at h
    · simp at h
    · simp only [] at h
      refine ⟨[egl.CONTEXT_MAJOR_VERSION, (version.1 : Int),
               egl.CONTEXT_MINOR_VERSION, (version.2 : Int)] ++ robAttrs ++
              (if gl_debug && vge egl_version (1, 5) then
                 [egl.CONTEXT_OPENGL_DEBUG, egl.TRUE] else []),
              (flags : Int), ?_⟩
      injection h with h'
      rw [← h']
  refine ⟨?_, hext, ?_⟩
  · intro attrs h
    by_cases hp : (vge egl_version (1, 5) ||
        extContains extensions "EGL_KHR_create_context") = true
    · obtain ⟨pre, flags, rfl⟩ := hext hp attrs h
      constructor
      · simp
      · rw [show [egl.CONTEXT_FLAGS_KHR, flags, egl.NONE] =
              [egl.CONTEXT_FLAGS_KHR, flags] ++ [egl.NONE] from rfl,
            ← List.append_assoc]
        rw [List.getLast?_append_of_ne_nil _ (by simp)]
        rfl
    · unfold assembleAttribs at h
      rw [Bool.not_eq_true] at hp
      rw [hp] at h
      simp only [Bool.false_eq_true, if_false] at h
      split at h
      · rcases rob <;> simp_all <;> (rw [← h]; exact ⟨by simp, rfl⟩)
      · rcases rob <;> simp_all <;> (rw [← h]; exact ⟨by simp, rfl⟩)
  · intro hp h13 hapi attrs h
    unfold assembleAttribs at h
    rw [hp] at h
    simp only [Bool.false_eq_true, if_false] at h
    rw [h13, hapi] at h
    simp at h
    rcases rob <;> simp_all

/-- Witness for `attrib_list_shape`: concrete attribute lists on the
extension-capable path and the ≥ 1.3 legacy GLES path. -/
theorem attrib_list_shape_witness :
    (∃ pre flags,
      ([egl.CONTEXT_MAJOR_VERSION, 3, egl.CONTEXT_MINOR_VERSION, 2,
        egl.CONTEXT_FLAGS_KHR, 0, egl.NONE] : List Int) =
        pre ++ [egl.CONTEXT_FLAGS_KHR, flags, egl.NONE]) ∧
    ([egl.CONTEXT_MAJOR_VERSION, 3, egl.CONTEXT_MINOR_VERSION, 2,
      egl.CONTEXT_FLAGS_KHR, 0, egl.NONE] : List Int).getLast? = some egl.NONE ∧
    assembleAttribs (1, 3) [] Api.OpenGlEs (2, 0) false Robustness.NotRobust =
      .ok [egl.CONTEXT_CLIENT_VERSION, 2, egl.NONE] := by
  have h1 : assembleAttribs (1, 5) [] Api.OpenGl (3, 2) false Robustness.NotRobust =
      .ok [egl.CONTEXT_MAJOR_VERSION, 3, egl.CONTEXT_MINOR_VERSION, 2,
           egl.CONTEXT_FLAGS_KHR, 0, egl.NONE] := by decide
  have h3 : assembleAttribs (1, 3) [] Api.OpenGlEs (2, 0) false Robustness.NotRobust =
      .ok [egl.CONTEXT_CLIENT_VERSION, 2, egl.NONE] := by decide
  refine ⟨(attrib_list_shape (1, 5) [] Api.OpenGl (3, 2) false Robustness.NotRobust).2.1
      (by decide) _ h1,
    ((attrib_list_shape (1, 5) [] Api.OpenGl (3, 2) false Robustness.NotRobust).1 _ h1).2,
    ?_⟩
  have := (attrib_list_shape (1, 3) [] Api.OpenGlEs (2, 0) false Robustness.NotRobust).2.2
    (by decide) (by decide) rfl _ h3
  rw [h3, this]

/-- C1:  Version fallback during `finish` is deterministic and exact:
with an explicit negotiated version, `create_context` runs exactly once at
that version and its result (success or typed error) is propagated; with
no explicit version and API GLES the attempts are (2,0) then (1,0), first
success winning; with no explicit version and desktop GL the attempts are
(3,2), (3,1), (1,0), first success winning; exhaustion of all attempts
yields `OpenGlVersionNotSupported`. -/
theorem finish_version_fallback (env : Egl) (p : Prototype) (s : Nat) :
    (∀ v, p.version = some v →
      attemptsOf (finish_impl env p s).2 = [v] ∧
      (∀ c, (ccAt env p v).1 = .ok c →
        (finish_impl env p s).1 = .ok (mkContext p c s)) ∧
      (∀ e, (ccAt env p v).1 = .err e → (finish_impl env p s).1 = .err e)) ∧
    (p.version = none → p.api = Api.OpenGlEs →
      (∀ c, (ccAt env p (2, 0)).1 = .ok c →
        (finish_impl env p s).1 = .ok (mkContext p c s) ∧
        attemptsOf (finish_impl env p s).2 = [(2, 0)]) ∧
      (∀ e c, (ccAt env p (2, 0)).1 = .err e → (ccAt env p (1, 0)).1 = .ok c →
        (finish_impl env p s).1 = .ok (mkContext p c s) ∧
        attemptsOf (finish_impl env p s).2 = [(2, 0), (1, 0)]) ∧
      (∀ e e', (ccAt env p (2, 0)).1 = .err e → (ccAt env p (1, 0)).1 = .err e' →
        (finish_impl env p s).1 = .err .OpenGlVersionNotSupported ∧
        attemptsOf (finish_impl env p s).2 = [(2, 0), (1, 0)])) ∧
    (p.version = none → p.api = Api.OpenGl →
      (∀ c, (ccAt env p (3, 2)).1 = .ok c →
        (finish_impl env p s).1 = .ok (mkContext p c s) ∧
        attemptsOf (finish_impl env p s).2 = [(3, 2)]) ∧
      (∀ e c, (ccAt env p (3, 2)).1 = .err e → (ccAt env p (3, 1)).1 = .ok c →
        (finish_impl env p s).1 = .ok (mkContext p c s) ∧
        attemptsOf (finish_impl env p s).2 = [(3, 2), (3, 1)]) ∧
      (∀ e e' c, (ccAt env p (3, 2)).1 = .err e → (ccAt env p (3, 1)).1 = .err e' →
        (ccAt env p (1, 0)).1 = .ok c →
        (finish_impl env p s).1 = .ok (mkContext p c s) ∧
        attemptsOf (finish_impl env p s).2 = [(3, 2), (3, 1), (1, 0)]) ∧
      (∀ e e' e'', (ccAt env p (3, 2)).1 = .err e → (ccAt env p (3, 1)).1 = .err e' →
        (ccAt env p (1, 0)).1 = .err e'' →
        (finish_impl env p s).1 = .err .OpenGlVersionNotSupported ∧
        attemptsOf (finish_impl env p s).2 = [(3, 2), (3, 1), (1, 0)])) := by
  refine ⟨fun v hv => ?_, fun hv hapi => ?_, fun hv hapi => ?_⟩
  · unfold finish_impl
    simp only [hv]
    refine ⟨?_, fun c hc => by simp only [hc], fun e he => by simp only [he]⟩
    rcases hc : (ccAt env p v).1 with c | e | n <;>
      simp only [hc, attemptsOf_cons_attempt, attemptsOf_ccAt]
  · have hfi : finish_impl env p s =
        fallbackStep env p s (2, 0) (fallbackStep env p s (1, 0)
          ((Res.err CreationError.OpenGlVersionNotSupported : Res Context),
           ([] : List NCall))) := by
      unfold finish_impl
      simp only [hv, hapi]
      rw [if_pos (by simp)]
    refine ⟨fun c hc => ?_, fun e c he hc => ?_, fun e e' he he' => ?_⟩
    · rw [hfi, fallbackStep_ok env p s _ _ c hc]
      simp [attemptsOf_cons_attempt, attemptsOf_ccAt]
    · rw [hfi, fallbackStep_err env p s _ _ e he, fallbackStep_ok env p s _ _ c hc]
      simp [attemptsOf_append, attemptsOf_cons_attempt, attemptsOf_ccAt]
    · rw [hfi, fallbackStep_err env p s _ _ e he, fallbackStep_err env p s _ _ e' he']
      simp [attemptsOf_append, attemptsOf_cons_attempt, attemptsOf_ccAt, attemptsOf]
  · have hfi : finish_impl env p s =
        fallbackStep env p s (3, 2) (fallbackStep env p s (3, 1)
          (fallbackStep env p s (1, 0)
            ((Res.err CreationError.OpenGlVersionNotSupported : Res Context),
             ([] : List NCall)))) := by
      unfold finish_impl
      simp only [hv, hapi]
      rw [if_neg (by simp)]
    refine ⟨fun c hc => ?_, fun e c he hc => ?_, fun e e' c he he' hc => ?_,
            fun e e' e'' he he' he'' => ?_⟩
    · rw [hfi, fallbackStep_ok env p s _ _ c hc]
      simp [attemptsOf_cons_attempt, attemptsOf_ccAt]
    · rw [hfi, fallbackStep_err env p s _ _ e he, fallbackStep_ok env p s _ _ c hc]
      simp [attemptsOf_append, attemptsOf_cons_attempt, attemptsOf_ccAt]
    · rw [hfi, fallbackStep_err env p s _ _ e he, fallbackStep_err env p s _ _ e' he',
          fallbackStep_ok env p s _ _ c hc]
      simp [attemptsOf_append, attemptsOf_cons_attempt, attemptsOf_ccAt]
    · rw [hfi, fallbackStep_err env p s _ _ e he, fallbackStep_err env p s _ _ e' he',
          fallbackStep_err env p s _ _ e'' he'']
      simp [attemptsOf_append, attemptsOf_cons_attempt, attemptsOf_ccAt, attemptsOf]

/-- Witness for `finish_version_fallback`: with every native creation
failing (`BAD_ATTRIBUTE`), the desktop-GL chain attempts exactly
(3,2), (3,1), (1,0) and exhausts into the version-not-supported error. -/
theorem finish_version_fallback_witness :
    (finish_impl envCreateFails protoBase 2).1 =
      .err CreationError.OpenGlVersionNotSupported ∧
    attemptsOf (finish_impl envCreateFails protoBase 2).2 =
      [(3, 2), (3, 1), (1, 0)] := by
  have h32 : (ccAt envCreateFails protoBase (3, 2)).1 =
      .err CreationError.OpenGlVersionNotSupported := by decide
  have h31 : (ccAt envCreateFails protoBase (3, 1)).1 =
      .err CreationError.OpenGlVersionNotSupported := by decide
  have h10 : (ccAt envCreateFails protoBase (1, 0)).1 =
      .err CreationError.OpenGlVersionNotSupported := by decide
  exact (finish_version_fallback envCreateFails protoBase 2).2.2 rfl rfl |>.2.2.2
    _ _ _ h32 h31 h10

/-- C10:  When native context creation fails during `finish` or
`finish_pbuffer` after the surface was already created, the error is
returned as-is and the error path performs no native teardown: the whole
trace contains no surface-destroy, no display-terminate (and no
context-destroy) call — the created surface and initialized display are
leaked rather than released. -/
theorem finish_error_no_teardown (env : Egl) (p : Prototype) (s : Nat) :
    (env.createWindowSurface = some s →
      (∀ e, (finish_impl env p s).1 = .err e → (finish env p).1 = .err e) ∧
      noTeardown (finish env p).2 = true) ∧
    (env.createPbufferSurface (pbufferAttribs p.builder.dimensions) = some s →
      (∀ e, (finish_impl env p s).1 = .err e → (finish_pbuffer env p).1 = .err e) ∧
      noTeardown (finish_pbuffer env p).2 = true) := by
  constructor
  · intro hs
    have hfi : finish env p =
        ((finish_impl env p s).1, .createWindowSurface :: (finish_impl env p s).2) := by
      unfold finish
      simp only [hs]
    rw [hfi]
    exact ⟨fun e he => he, by
      rw [show noTeardown (NCall.createWindowSurface :: (finish_impl env p s).2) =
            noTeardown (finish_impl env p s).2 from by simp [noTeardown]]
      exact noTeardown_finish_impl env p s⟩
  · intro hs
    have hfi : finish_pbuffer env p =
        ((finish_impl env p s).1,
         .createPbufferSurface (pbufferAttribs p.builder.dimensions) ::
           (finish_impl env p s).2) := by
      unfold finish_pbuffer
      simp only [hs]
    rw [hfi]
    exact ⟨fun e he => he, by
      rw [show noTeardown (NCall.createPbufferSurface
              (pbufferAttribs p.builder.dimensions) :: (finish_impl env p s).2) =
            noTeardown (finish_impl env p s).2 from by simp [noTeardown]]
      exact noTeardown_finish_impl env p s⟩

/-- Witness for `finish_error_no_teardown`: a failing creation after a
successful window surface leaves a teardown-free trace. -/
theorem finish_error_no_teardown_witness :
    (finish envCreateFails protoBase).1 =
      .err CreationError.OpenGlVersionNotSupported ∧
    noTeardown (finish envCreateFails protoBase).2 = true := by
  have h := (finish_error_no_teardown envCreateFails protoBase 2).1 rfl
  exact ⟨h.1 CreationError.OpenGlVersionNotSupported (by decide), h.2⟩

/-! ## Inversion of config enumeration -/

theorem mem_analyzeConfigs {env : Egl} {display : Nat} {api : Api}
    {version : Option (Nat × Nat)} :
    ∀ {ids : List Nat} {l : List (Nat × PixelFormat)} {q : Nat × PixelFormat},
    analyzeConfigs env display api version ids = .ok l → q ∈ l →
    ∃ id, id ∈ ids ∧ analyzeConfig env display api version id = .ok (some q) := by
  intro ids
  induction ids with
  | nil =>
    intro l q h hq
    unfold analyzeConfigs at h
    injection h with h'
    subst h'
    simp at hq
  | cons id rest ih =>
    intro l q h hq
    unfold analyzeConfigs at h
    rcases hA : analyzeConfig env display api version id with e | o
    · rw [hA] at h; simp at h
    · rcases o with _ | p
      · rw [hA] at h
        replace h : analyzeConfigs env display api version rest = .ok l := h
        obtain ⟨id', hid', ha⟩ := ih h hq
        exact ⟨id', by simp [hid'], ha⟩
      · rw [hA] at h
        replace h : (match analyzeConfigs env display api version rest with
          | .error e => (.error e : Except CreationError (List (Nat × PixelFormat)))
          | .ok l0 => .ok (p :: l0)) = .ok l := h
        rcases hR : analyzeConfigs env display api version rest with e | l0
        · rw [hR] at h; simp at h
        · rw [hR] at h
          replace h : (Except.ok (p :: l0) :
              Except CreationError (List (Nat × PixelFormat))) = .ok l := h
          injection h with h'
          subst h'
          rcases List.mem_cons.mp hq with rfl | hmem
          · exact ⟨id, by simp, hA⟩
          · obtain ⟨id', hid', ha⟩ := ih hR hmem
            exact ⟨id', by simp [hid'], ha⟩

theorem analyzeConfig_inv {env : Egl} {display : Nat} {api : Api}
    {version : Option (Nat × Nat)} {config_id c : Nat} {pf : PixelFormat}
    (h : analyzeConfig env display api version config_id = .ok (some (c, pf))) :
    c = config_id ∧
    ∃ renderable conformant surface transparent cbt caveat red blue green
      alpha depth stencil samples,
      env.getConfigAttrib display config_id egl.RENDERABLE_TYPE = some renderable ∧
      env.getConfigAttrib display config_id egl.CONFORMANT = some conformant ∧
      env.getConfigAttrib display config_id egl.SURFACE_TYPE = some surface ∧
      env.getConfigAttrib display config_id egl.TRANSPARENT_TYPE = some transparent ∧
      env.getConfigAttrib display config_id egl.COLOR_BUFFER_TYPE = some cbt ∧
      env.getConfigAttrib display config_id egl.CONFIG_CAVEAT = some caveat ∧
      env.getConfigAttrib display config_id egl.RED_SIZE = some red ∧
      env.getConfigAttrib display config_id egl.BLUE_SIZE = some blue ∧
      env.getConfigAttrib display config_id egl.GREEN_SIZE = some green ∧
      env.getConfigAttrib display config_id egl.ALPHA_SIZE = some alpha ∧
      env.getConfigAttrib display config_id egl.DEPTH_SIZE = some depth ∧
      env.getConfigAttrib display config_id egl.STENCIL_SIZE = some stencil ∧
      env.getConfigAttrib display config_id egl.SAMPLES = some samples ∧
      capabilityReject api version (asU32 renderable) (asU32 conformant) = false ∧
      (asU32 surface &&& (egl.WINDOW_BIT ||| egl.PBUFFER_BIT) == 0) = false ∧
      transparent = egl.NONE ∧
      cbt = egl.RGB_BUFFER ∧
      pf = { hardware_accelerated := caveat != egl.SLOW_CONFIG
             color_bits := (asU8 red + asU8 blue + asU8 green) % 256
             alpha_bits := asU8 alpha
             depth_bits := asU8 depth
             stencil_bits := asU8 stencil
             stereoscopy := false
             double_buffer := true
             multisampling := if samples == 0 || samples == 1 then none
                              else some (asU16 samples)
             srgb := false } := by
  unfold analyzeConfig at h
  rcases h1 : env.getConfigAttrib display config_id egl.RENDERABLE_TYPE
    with _ | renderable
  · rw [h1] at h; simp at h
  simp only [h1] at h
  rcases h2 : env.getConfigAttrib display config_id egl.CONFORMANT
    with _ | conformant
  · rw [h2] at h; simp at h
  simp only [h2] at h
  rcases hcr : capabilityReject api version (asU32 renderable) (asU32 conformant)
  case true => simp only [hcr, if_true] at h; simp at h
  simp only [hcr, Bool.false_eq_true, if_false] at h
  rcases h3 : env.getConfigAttrib display config_id egl.SURFACE_TYPE
    with _ | surface
  · rw [h3] at h; simp at h
  simp only [h3] at h
  rcases hsf : asU32 surface &&& (egl.WINDOW_BIT ||| egl.PBUFFER_BIT) == 0
  case true => simp only [hsf, if_true] at h; simp at h
  simp only [hsf, Bool.false_eq_true, if_false] at h
  rcases h4 : env.getConfigAttrib display config_id egl.TRANSPARENT_TYPE
    with _ | transparent
  · rw [h4] at h; simp at h
  simp only [h4] at h
  rcases htr : transparent != egl.NONE
  case true => simp only [htr, if_true] at h; simp at h
  simp only [htr, Bool.false_eq_true, if_false] at h
  rcases h5 : env.getConfigAttrib display config_id egl.COLOR_BUFFER_TYPE
    with _ | cbt
  · rw [h5] at h; simp at h
  simp only [h5] at h
  rcases hcb : cbt != egl.RGB_BUFFER
  case true => simp only [hcb, if_true] at h; simp at h
  simp only [hcb, Bool.false_eq_true, if_false] at h
  rcases h6 : env.getConfigAttrib display config_id egl.CONFIG_CAVEAT
    with _ | caveat
  · rw [h6] at h; simp at h
  simp only [h6] at h
  rcases h7 : env.getConfigAttrib display config_id egl.RED_SIZE with _ | red
  · rw [h7] at h; simp at h
  simp only [h7] at h
  rcases h8 : env.getConfigAttrib display config_id egl.BLUE_SIZE with _ | blue
  · rw [h8] at h; simp at h
  simp only [h8] at h
  rcases h9 : env.getConfigAttrib display config_id egl.GREEN_SIZE with _ | green
  · rw [h9] at h; simp at h
  simp only [h9] at h
  rcases h10 : env.getConfigAttrib display config_id egl.ALPHA_SIZE with _ | alpha
  · rw [h10] at h; simp at h
  simp only [h10] at h
  rcases h11 : env.getConfigAttrib display config_id egl.DEPTH_SIZE with _ | depth
  · rw [h11] at h; simp at h
  simp only [h11] at h
  rcases h12 : env.getConfigAttrib display config_id egl.STENCIL_SIZE
    with _ | stencil
  · rw [h12] at h; simp at h
  simp only [h12] at h
  rcases h13 : env.getConfigAttrib display config_id egl.SAMPLES with _ | samples
  · rw [h13] at h; simp at h
  simp only [h13] at h
  simp only [Except.ok.injEq, Option.some.injEq, Prod.mk.injEq] at h
  obtain ⟨hid, hpf⟩ := h
  refine ⟨hid.symm, renderable, conformant, surface, transparent, cbt, caveat,
    red, blue, green, alpha, depth, stencil, samples,
    rfl, rfl, rfl, rfl, rfl, rfl, rfl, rfl, rfl, rfl, rfl, rfl, rfl,
    hcr, hsf, ?_, ?_, hpf.symm⟩
  · simpa using htr
  · simpa using hcb

/-- C6 counterexample:  With API GLES and no explicit version, the
renderable/conformant filter is skipped entirely: a config whose
capability masks are zero — no API-family bit at all — still survives
enumeration (it passes the surface/transparency/color filters), so not
every output satisfies filter (1) of the claim. -/
theorem enumerate_gles_unversioned_no_family_bit :
    enumerate_configs envNoBits 1 (1, 4) Api.OpenGlEs none = .ok [(5, pfZero)] ∧
    envNoBits.getConfigAttrib 1 5 egl.RENDERABLE_TYPE = some 0 ∧
    envNoBits.getConfigAttrib 1 5 egl.CONFORMANT = some 0 ∧
    asU32 0 &&& egl.OPENGL_ES_BIT = 0 ∧
    asU32 0 &&& egl.OPENGL_ES2_BIT = 0 ∧
    asU32 0 &&& egl.OPENGL_ES3_BIT = 0 ∧
    asU32 0 &&& egl.OPENGL_BIT = 0 := by
  decide

/-- C6 (amended):  Every (config, pixel-format) pair output by
enumeration satisfies: (1) for desktop GL, both the renderable and
conformant masks contain the GL bit; for GLES with a requested major
version 3/2/1, both masks contain the matching ES3/ES2/ES1 bit (for GLES
with no requested version, or another major, no capability filtering is
applied — see the counterexample); (2) the surface-type mask has a window
or pbuffer bit; (3) the transparency type is "none"; (4) the color-buffer
type is RGB. -/
theorem enumerate_filters {env : Egl} {display : Nat} {ev : Int × Int}
    {api : Api} {version : Option (Nat × Nat)} {l : List (Nat × PixelFormat)}
    {c : Nat} {pf : PixelFormat}
    (h : enumerate_configs env display ev api version = .ok l)
    (hm : (c, pf) ∈ l) :
    ∃ renderable conformant surface transparent cbt,
      env.getConfigAttrib display c egl.RENDERABLE_TYPE = some renderable ∧
      env.getConfigAttrib display c egl.CONFORMANT = some conformant ∧
      env.getConfigAttrib display c egl.SURFACE_TYPE = some surface ∧
      env.getConfigAttrib display c egl.TRANSPARENT_TYPE = some transparent ∧
      env.getConfigAttrib display c egl.COLOR_BUFFER_TYPE = some cbt ∧
      (api = Api.OpenGl →
        asU32 renderable &&& egl.OPENGL_BIT ≠ 0 ∧
        asU32 conformant &&& egl.OPENGL_BIT ≠ 0) ∧
      (∀ v, api = Api.OpenGlEs → version = some v →
        (v.1 = 3 → asU32 renderable &&& egl.OPENGL_ES3_BIT ≠ 0 ∧
                   asU32 conformant &&& egl.OPENGL_ES3_BIT ≠ 0) ∧
        (v.1 = 2 → asU32 renderable &&& egl.OPENGL_ES2_BIT ≠ 0 ∧
                   asU32 conformant &&& egl.OPENGL_ES2_BIT ≠ 0) ∧
        (v.1 = 1 → asU32 renderable &&& egl.OPENGL_ES_BIT ≠ 0 ∧
                   asU32 conformant &&& egl.OPENGL_ES_BIT ≠ 0)) ∧
      asU32 surface &&& (egl.WINDOW_BIT ||| egl.PBUFFER_BIT) ≠ 0 ∧
      transparent = egl.NONE ∧
      cbt = egl.RGB_BUFFER := by
  unfold enumerate_configs at h
  rcases hG : env.getConfigs with _ | ids
  · rw [hG] at h; simp at h
  rw [hG] at h
  replace h : analyzeConfigs env display api version ids = .ok l := h
  obtain ⟨id, hid, ha⟩ := mem_analyzeConfigs h hm
  obtain ⟨rfl, renderable, conformant, surface, transparent, cbt, caveat,
    red, blue, green, alpha, depth, stencil, samples,
    hr, hc2, hs, ht, hcb, _, _, _, _, _, _, _, _, hcr, hsf, htr, hcbt, _⟩ :=
    analyzeConfig_inv ha
  refine ⟨renderable, conformant, surface, transparent, cbt,
    hr, hc2, hs, ht, hcb, ?_, ?_, ?_, htr, hcbt⟩
  · intro hapi
    subst hapi
    simp [capabilityReject] at hcr
    exact hcr
  · intro v hapi hver
    subst hapi
    subst hver
    simp only [capabilityReject, Bool.or_eq_false_iff, Bool.and_eq_false_iff] at hcr
    obtain ⟨⟨hcr3, hcr2⟩, hcr1⟩ := hcr
    refine ⟨fun h3 => ?_, fun h2 => ?_, fun h1 => ?_⟩
    · rcases hcr3 with hx | hx
      · exact absurd (by simpa using hx) (by simp [h3])
      · simpa using hx
    · rcases hcr2 with hx | hx
      · exact absurd (by simpa using hx) (by simp [h2])
      · simpa using hx
    · rcases hcr1 with hx | hx
      · exact absurd (by simpa using hx) (by simp [h1])
      · simpa using hx
  · simpa using hsf

/-- Witness for `enumerate_filters`: one realistic desktop-GL config. -/
theorem enumerate_filters_witness :
    ∃ renderable conformant surface transparent cbt,
      envOneConfig.getConfigAttrib 1 5 egl.RENDERABLE_TYPE = some renderable ∧
      envOneConfig.getConfigAttrib 1 5 egl.CONFORMANT = some conformant ∧
      envOneConfig.getConfigAttrib 1 5 egl.SURFACE_TYPE = some surface ∧
      envOneConfig.getConfigAttrib 1 5 egl.TRANSPARENT_TYPE = some transparent ∧
      envOneConfig.getConfigAttrib 1 5 egl.COLOR_BUFFER_TYPE = some cbt ∧
      (Api.OpenGl = Api.OpenGl →
        asU32 renderable &&& egl.OPENGL_BIT ≠ 0 ∧
        asU32 conformant &&& egl.OPENGL_BIT ≠ 0) ∧
      (∀ v, Api.OpenGl = Api.OpenGlEs → (none : Option (Nat × Nat)) = some v →
        (v.1 = 3 → asU32 renderable &&& egl.OPENGL_ES3_BIT ≠ 0 ∧
                   asU32 conformant &&& egl.OPENGL_ES3_BIT ≠ 0) ∧
        (v.1 = 2 → asU32 renderable &&& egl.OPENGL_ES2_BIT ≠ 0 ∧
                   asU32 conformant &&& egl.OPENGL_ES2_BIT ≠ 0) ∧
        (v.1 = 1 → asU32 renderable &&& egl.OPENGL_ES_BIT ≠ 0 ∧
                   asU32 conformant &&& egl.OPENGL_ES_BIT ≠ 0)) ∧
      asU32 surface &&& (egl.WINDOW_BIT ||| egl.PBUFFER_BIT) ≠ 0 ∧
      transparent = egl.NONE ∧
      cbt = egl.RGB_BUFFER :=
  @enumerate_filters envOneConfig 1 (1, 4) Api.OpenGl none [(5, pfOne)] 5 pfOne
    (by decide) (by decide)

/-- C7:  For every config surviving the filters, the derived
`PixelFormat` satisfies: `double_buffer` is always true, `stereoscopy` and
`srgb` always false; `hardware_accelerated` is true iff the caveat is not
the "slow config" value; `color_bits` is the sum of the red, green and
blue channel sizes (within the `u8` ranges the fields carry);
`multisampling` is `none` when the sample count is 0 or 1 and
`some count` otherwise. -/
theorem pixel_format_derivation {env : Egl} {display : Nat} {ev : Int × Int}
    {api : Api} {version : Option (Nat × Nat)} {l : List (Nat × PixelFormat)}
    {c : Nat} {pf : PixelFormat}
    (h : enumerate_configs env display ev api version = .ok l)
    (hm : (c, pf) ∈ l) :
    pf.double_buffer = true ∧ pf.stereoscopy = false ∧ pf.srgb = false ∧
    ∃ caveat red blue green samples,
      env.getConfigAttrib display c egl.CONFIG_CAVEAT = some caveat ∧
      env.getConfigAttrib display c egl.RED_SIZE = some red ∧
      env.getConfigAttrib display c egl.BLUE_SIZE = some blue ∧
      env.getConfigAttrib display c egl.GREEN_SIZE = some green ∧
      env.getConfigAttrib display c egl.SAMPLES = some samples ∧
      (pf.hardware_accelerated = true ↔ caveat ≠ egl.SLOW_CONFIG) ∧
      (0 ≤ red → 0 ≤ blue → 0 ≤ green → red + blue + green < 256 →
        (pf.color_bits : Int) = red + green + blue) ∧
      (samples = 0 ∨ samples = 1 → pf.multisampling = none) ∧
      (samples ≠ 0 → samples ≠ 1 → pf.multisampling = some (asU16 samples)) ∧
      (samples ≠ 0 → samples ≠ 1 → 0 ≤ samples → samples < 65536 →
        pf.multisampling = some samples.toNat) := by
  unfold enumerate_configs at h
  rcases hG : env.getConfigs with _ | ids
  · rw [hG] at h; simp at h
  rw [hG] at h
  replace h : analyzeConfigs env display api version ids = .ok l := h
  obtain ⟨id, hid, ha⟩ := mem_analyzeConfigs h hm
  obtain ⟨rfl, renderable, conformant, surface, transparent, cbt, caveat,
    red, blue, green, alpha, depth, stencil, samples,
    hr, hc2, hs, ht, hcb, hcv, hred, hblue, hgreen, halpha, hdepth, hstencil,
    hsam, hcr, hsf, htr, hcbt, hpf⟩ := analyzeConfig_inv ha
  subst hpf
  refine ⟨rfl, rfl, rfl, caveat, red, blue, green, samples,
    hcv, hred, hblue, hgreen, hsam, ?_, ?_, ?_, ?_, ?_⟩
  · simp [bne_iff_ne]
  · intro h0r h0b h0g hsum
    have hr256 : red < 256 := by omega
    have hb256 : blue < 256 := by omega
    have hg256 : green < 256 := by omega
    show (((asU8 red + asU8 blue + asU8 green) % 256 : Nat) : Int) = red + green + blue
    unfold asU8
    rw [Int.emod_eq_of_lt h0r hr256, Int.emod_eq_of_lt h0b hb256,
        Int.emod_eq_of_lt h0g hg256]
    have hlt : red.toNat + blue.toNat + green.toNat < 256 := by omega
    rw [Nat.mod_eq_of_lt hlt]
    push_cast
    omega
  · intro hs01
    show (if samples == 0 || samples == 1 then none else some (asU16 samples)) = none
    rcases hs01 with h0 | h0 <;> simp [h0]
  · intro hn0 hn1
    show (if samples == 0 || samples == 1 then none else some (asU16 samples)) =
      some (asU16 samples)
    simp [hn0, hn1]
  · intro hn0 hn1 h0 hlt
    show (if samples == 0 || samples == 1 then none else some (asU16 samples)) =
      some samples.toNat
    have : asU16 samples = samples.toNat := by
      unfold asU16
      rw [Int.emod_eq_of_lt h0 hlt]
    simp [hn0, hn1, this]

/-- Witness for `pixel_format_derivation`: the realistic config of
`envOneConfig` yields color bits 24 = 8+8+8 and 4 multisampling samples. -/
theorem pixel_format_derivation_witness :
    pfOne.double_buffer = true ∧ pfOne.stereoscopy = false ∧
    pfOne.srgb = false ∧ pfOne.hardware_accelerated = true ∧
    (pfOne.color_bits : Int) = 8 + 8 + 8 ∧
    pfOne.multisampling = some 4 := by
  have h := @pixel_format_derivation envOneConfig 1 (1, 4) Api.OpenGl none
    [(5, pfOne)] 5 pfOne (by decide) (by decide)
  obtain ⟨hdb, hst, hsr, caveat, red, blue, green, samples,
    hcv, hred, hblue, hgreen, hsam, hhw, hcb, _, hmsS, hmsN⟩ := h
  have hcaveat : caveat = 0 := by
    have he : envOneConfig.getConfigAttrib 1 5 egl.CONFIG_CAVEAT = some 0 := by decide
    rw [he] at hcv
    exact (Option.some_injective _ hcv).symm
  have hred8 : red = 8 := by
    have he : envOneConfig.getConfigAttrib 1 5 egl.RED_SIZE = some 8 := by decide
    rw [he] at hred
    exact (Option.some_injective _ hred).symm
  have hblue8 : blue = 8 := by
    have he : envOneConfig.getConfigAttrib 1 5 egl.BLUE_SIZE = some 8 := by decide
    rw [he] at hblue
    exact (Option.some_injective _ hblue).symm
  have hgreen8 : green = 8 := by
    have he : envOneConfig.getConfigAttrib 1 5 egl.GREEN_SIZE = some 8 := by decide
    rw [he] at hgreen
    exact (Option.some_injective _ hgreen).symm
  have hsam4 : samples = 4 := by
    have he : envOneConfig.getConfigAttrib 1 5 egl.SAMPLES = some 4 := by decide
    rw [he] at hsam
    exact (Option.some_injective _ hsam).symm
  subst hcaveat hred8 hblue8 hgreen8 hsam4
  refine ⟨hdb, hst, hsr, ?_, ?_, ?_⟩
  · exact hhw.mpr (by decide)
  · simpa using hcb (by decide) (by decide) (by decide) (by decide)
  · simpa using hmsN (by decide) (by decide) (by decide) (by decide)

end Winit
